import Mathlib

/-!
# Verification of the VLA action planning / execution core

A shallow embedding, in Lean 4, of the planning, safety and execution
services of the Vision-Language-Action (VLA) integration system
(`planning_service.py`, `action_executor.py`, `whisper_pipeline.py`),
together with theorems settling the specification's claims about them.

Conventions of the embedding:
* Python floats are modelled as rationals (`ℚ`); every constant involved
  (0.1, 0.5, 1.0, 2.0, 3.0, 5.0, ...) is exactly representable, so the
  arithmetic the claims speak about is unchanged.
* Python dicts used as `parameters` maps are modelled as association lists
  `List (String × Value)` with first-match lookup.
* Wall-clock readings (`datetime.now()`) and the simulated asyncio delays
  are modelled by explicit "world" records supplying the timestamps,
  per-action durations and per-action exception events; the data types of
  the data-model module (plain dataclasses with no logic) are transcribed
  field by field.
* A Python function that may raise is modelled with `Except String`; a
  `try/except` block becomes a `match` on that value.
-/

namespace VLA

/-- The three action families of the data model (`ActionType`). -/
inductive ActionType where
  | NAVIGATION
  | MANIPULATION
  | DETECTION
deriving DecidableEq, Repr

/-- Lifecycle status of commands and plans (`CommandStatus`). -/
inductive CommandStatus where
  | PENDING
  | PROCESSING
  | COMPLETED
  | FAILED
deriving DecidableEq, Repr

/-- Robot safety flag; its `value` mirrors the Python enum's string value. -/
inductive SafetyStatus where
  | safe
  | notSafe
deriving DecidableEq, Repr

/-- String value of a `SafetyStatus`, as compared by the Python source. -/
def SafetyStatus.value : SafetyStatus → String
  | SafetyStatus.safe => "safe"
  | SafetyStatus.notSafe => "unsafe"

/-- A 3D position (`Position3D`). -/
structure Position3D where
  x : ℚ
  y : ℚ
  z : ℚ
deriving DecidableEq, Repr

/-- Values stored in a `parameters` dictionary: the source stores strings,
floats and positions there. -/
inductive Value where
  | str (s : String)
  | num (q : ℚ)
  | pos (p : Position3D)
deriving DecidableEq, Repr

/-- A Python dict used as a `parameters` map: association list with
first-match lookup (dict keys are unique, so first match is the match). -/
abbrev Params := List (String × Value)

/-- `d.get(k)` when the caller only needs presence or the raw value. -/
def Params.get? (ps : Params) (k : String) : Option Value :=
  (ps.find? (fun p => p.1 == k)).map (fun p => p.2)

/-- `k in d` for a Python dict. -/
def Params.containsKey (ps : Params) (k : String) : Bool :=
  (ps.get? k).isSome

/-- `d.get(k, default)`. -/
def Params.getD (ps : Params) (k : String) (d : Value) : Value :=
  (ps.get? k).getD d

/-- `d.get(k, default)` where the source goes on to use the value as a
number. A present non-numeric value would raise a `TypeError` later in the
source; the planner only ever stores numbers under these keys, so that
path is collapsed to the default here. -/
def Params.getNumD (ps : Params) (k : String) (d : ℚ) : ℚ :=
  match ps.get? k with
  | some (Value.num q) => q
  | _ => d

/-- How a parameter value prints inside a Python f-string (display only;
no claim depends on this text). -/
def Value.display : Value → String
  | Value.str s => s
  | Value.num q => toString q
  | Value.pos p =>
      "(" ++ toString p.x ++ ", " ++ toString p.y ++ ", " ++ toString p.z ++ ")"

/-- One atomic robot operation (`Action`). -/
structure Action where
  type : ActionType
  parameters : Params
  priority : Int
  dependencies : List String
deriving DecidableEq, Repr

/-- An ordered plan of actions (`ActionPlan`). `created_at` is a timestamp
reading, modelled as a natural number. -/
structure ActionPlan where
  id : String
  voice_command_id : String
  actions : List Action
  status : CommandStatus
  created_at : Nat
  estimated_duration : ℚ
deriving DecidableEq, Repr

/-- Outcome of one executed action (`ActionResult`). -/
structure ActionResult where
  action_id : String
  status : String
  details : String
  duration : ℚ
deriving DecidableEq, Repr

/-- Aggregated outcome of a plan execution (`ExecutionResult`). -/
structure ExecutionResult where
  id : String
  action_plan_id : String
  results : List ActionResult
  overall_status : String
  execution_time : ℚ
  timestamp : Nat
deriving DecidableEq, Repr

/-- Robot state snapshot (`RobotState`); only the fields the embedded
functions read are carried. -/
structure RobotState where
  position : Position3D
  battery_level : ℚ
  available_capabilities : List String
  safety_status : SafetyStatus
deriving DecidableEq, Repr

/-- One perceived object (`ObjectInfo`). -/
structure ObjectInfo where
  id : String
  type : String
  position : Position3D
  confidence : ℚ
deriving DecidableEq, Repr

/-- Environment snapshot (`EnvironmentalContext`); obstacles carry no
structure the embedded functions inspect beyond emptiness. -/
structure EnvironmentalContext where
  objects : List ObjectInfo
  obstacles : List Position3D
deriving DecidableEq, Repr

/-! ## SafetyProtocolEnforcer -/

/-- `SafetyProtocolEnforcer._check_navigation_safety`: both branches of the
source return `True` (obstacle presence alone never blocks). -/
def check_navigation_safety (_action : Action)
    (env : EnvironmentalContext) : Bool :=
  if ¬ env.obstacles.isEmpty then true
  else true

/-- `SafetyProtocolEnforcer.check_action_safety`: battery below 10 % →
unsafe; robot flagged unsafe → unsafe; navigation delegates to the
obstacle check; manipulation needs the "manipulation" capability;
everything else is safe. -/
def check_action_safety (action : Action) (robot_state : RobotState)
    (environmental_context : EnvironmentalContext) : Bool :=
  if robot_state.battery_level < 1/10 then false
  else if robot_state.safety_status.value == "unsafe" then false
  else if action.type == ActionType.NAVIGATION then
    (if check_navigation_safety action environmental_context then true else false)
  else if action.type == ActionType.MANIPULATION then
    (if ¬ robot_state.available_capabilities.contains "manipulation" then false
     else true)
  else true

/-- `SafetyProtocolEnforcer.enforce_safety_constraints`: keep exactly the
actions that pass `check_action_safety`, in a fresh plan whose id gains the
`safe_` prefix; every other field is copied from the original plan. -/
def enforce_safety_constraints (action_plan : ActionPlan)
    (robot_state : RobotState)
    (environmental_context : EnvironmentalContext) : ActionPlan :=
  let safe_actions := action_plan.actions.filter
    (fun action => check_action_safety action robot_state environmental_context)
  { id := "safe_" ++ action_plan.id
    voice_command_id := action_plan.voice_command_id
    actions := safe_actions
    status := action_plan.status
    created_at := action_plan.created_at
    estimated_duration := action_plan.estimated_duration }

/-! ## ActionExecutor: plan validation -/

/-- The membership test `action.type in [at for at in ActionType]` of the
source; on the typed embedding every `ActionType` is a member. -/
def actionTypeValid (t : ActionType) : Bool :=
  [ActionType.NAVIGATION, ActionType.MANIPULATION, ActionType.DETECTION].contains t

/-- Errors the dependency loop of `validate_action_plan` reports for one
action: each dependency string must equal `"action_<j>"` for some index
`j` of the same plan. -/
def dependency_errors (n : Nat) (i : Nat) (action : Action) : List String :=
  action.dependencies.filterMap (fun dep =>
    if (List.range n).any (fun j => ("action_" ++ toString j) == dep) then none
    else some ("Action " ++ toString i ++ ": Invalid dependency \u0027" ++ dep ++ "\u0027"))

/-- Errors reported for one action of the plan (type check, then
dependency checks, in source order). -/
def action_errors (n : Nat) (i : Nat) (action : Action) : List String :=
  (if actionTypeValid action.type then []
   else ["Action " ++ toString i ++ ": Invalid action type \u0027" ++
         toString (repr action.type) ++ "\u0027"]) ++
  dependency_errors n i action

/-- `ActionExecutor.validate_action_plan`: empty-plan error first, then the
per-action errors in plan order. -/
def validate_action_plan (action_plan : ActionPlan) : List String :=
  (if action_plan.actions.isEmpty then ["Action plan has no actions"] else []) ++
  (action_plan.actions.enum.map
    (fun p => action_errors action_plan.actions.length p.1 p.2)).flatten

/-! ## ActionExecutor: execution

The simulated hardware calls (`asyncio.sleep`) and the logging calls inside
each per-type executor are the raise points of the source.  An `ExecEvent`
says, for one action, whether such a call raised inside the per-type
executor's own `try` block (`innerRaise`, caught there), raised in the frame
of `_execute_single_action` itself (`outerRaise`, caught by its
`try/except`), or nothing raised (`normal`). -/

/-- What the runtime does while one action executes. -/
inductive ExecEvent where
  | normal
  | innerRaise (msg : String)
  | outerRaise (msg : String)
deriving DecidableEq, Repr

/-- `ActionExecutor._execute_navigation_action`.  The `Except.error` case
is a raise escaping this function (to be caught by the caller); the
function's own `except` clause turns an inner raise into a failed result. -/
def execute_navigation_action (action : Action) (ev : ExecEvent) :
    Except String ActionResult :=
  match ev with
  | ExecEvent.outerRaise msg => Except.error msg
  | ExecEvent.innerRaise msg =>
      Except.ok { action_id := "navigation_action", status := "failed",
                  details := "Navigation error: " ++ msg, duration := 0 }
  | ExecEvent.normal =>
    let ap := action.parameters
    let av := ap.getD "action" (Value.str "unknown")
    if av == Value.str "navigate_to" then
      let target_location := (ap.getD "target_location" (Value.str "unknown")).display
      Except.ok { action_id := "navigation_action", status := "success",
                  details := "Navigated to " ++ target_location, duration := 2 }
    else if av == Value.str "move_direction" then
      let direction := (ap.getD "direction" (Value.str "forward")).display
      let distance := (ap.getD "distance" (Value.num 1)).display
      Except.ok { action_id := "navigation_action", status := "success",
                  details := "Moved " ++ direction ++ " for " ++ distance ++ "m",
                  duration := 3/2 }
    else if av == Value.str "move_toward" then
      let direction := (ap.getD "direction" (Value.str "forward")).display
      Except.ok { action_id := "navigation_action", status := "success",
                  details := "Moved toward " ++ direction, duration := 1 }
    else if av == Value.str "move_forward" then
      let distance := (ap.getD "distance" (Value.num 1)).display
      Except.ok { action_id := "navigation_action", status := "success",
                  details := "Moved forward " ++ distance ++ "m", duration := 1 }
    else if av == Value.str "stop" then
      Except.ok { action_id := "navigation_action", status := "success",
                  details := "Robot stopped", duration := 1/2 }
    else
      Except.ok { action_id := "navigation_action", status := "failed",
                  details := "Unknown navigation action: " ++ av.display,
                  duration := 0 }

/-- `ActionExecutor._execute_manipulation_action`. -/
def execute_manipulation_action (action : Action) (ev : ExecEvent) :
    Except String ActionResult :=
  match ev with
  | ExecEvent.outerRaise msg => Except.error msg
  | ExecEvent.innerRaise msg =>
      Except.ok { action_id := "manipulation_action", status := "failed",
                  details := "Manipulation error: " ++ msg, duration := 0 }
  | ExecEvent.normal =>
    let ap := action.parameters
    let av := ap.getD "action" (Value.str "unknown")
    if [Value.str "pick_up", Value.str "grasp", Value.str "take",
        Value.str "grab"].contains av then
      let object_type := (ap.getD "object_type" (Value.str "unknown")).display
      Except.ok { action_id := "manipulation_action", status := "success",
                  details := "Picked up " ++ object_type, duration := 5/2 }
    else if [Value.str "place", Value.str "put_down", Value.str "release",
             Value.str "drop"].contains av then
      Except.ok { action_id := "manipulation_action", status := "success",
                  details := "Object placed", duration := 2 }
    else if av == Value.str "move_arm" then
      let position := (ap.getD "position" (Value.str "default")).display
      Except.ok { action_id := "manipulation_action", status := "success",
                  details := "Arm moved to " ++ position, duration := 3/2 }
    else if av == Value.str "idle" then
      let reason := (ap.getD "reason" (Value.str "no specific reason")).display
      Except.ok { action_id := "manipulation_action", status := "success",
                  details := "Idling: " ++ reason, duration := 1/2 }
    else
      Except.ok { action_id := "manipulation_action", status := "failed",
                  details := "Unknown manipulation action: " ++ av.display,
                  duration := 0 }

/-- `ActionExecutor._execute_detection_action`. -/
def execute_detection_action (action : Action) (ev : ExecEvent) :
    Except String ActionResult :=
  match ev with
  | ExecEvent.outerRaise msg => Except.error msg
  | ExecEvent.innerRaise msg =>
      Except.ok { action_id := "detection_action", status := "failed",
                  details := "Detection error: " ++ msg, duration := 0 }
  | ExecEvent.normal =>
    let ap := action.parameters
    let av := ap.getD "action" (Value.str "unknown")
    if av == Value.str "detect_objects" then
      let object_type := (ap.getD "object_type" (Value.str "any")).display
      let search_area := (ap.getD "search_area" (Value.str "current_area")).display
      Except.ok { action_id := "detection_action", status := "success",
                  details := "Completed detection of " ++ object_type ++
                             " objects in " ++ search_area, duration := 1 }
    else if av == Value.str "scan_environment" then
      Except.ok { action_id := "detection_action", status := "success",
                  details := "Environment scan completed", duration := 2 }
    else if av == Value.str "report_status" then
      Except.ok { action_id := "detection_action", status := "success",
                  details := "Status reported", duration := 1/2 }
    else if av == Value.str "search_for_object" then
      let object_type := (ap.getD "object_type" (Value.str "unknown")).display
      Except.ok { action_id := "detection_action", status := "success",
                  details := "Search for " ++ object_type ++ " completed",
                  duration := 3/2 }
    else
      Except.ok { action_id := "detection_action", status := "failed",
                  details := "Unknown detection action: " ++ av.display,
                  duration := 0 }

/-- The per-type dispatch inside the `try` of `_execute_single_action`.
On the typed embedding `action.type` is always one of the three members,
so the source's `else` arm (unknown action type) is unreachable. -/
def dispatch_action (action : Action) (ev : ExecEvent) :
    Except String ActionResult :=
  match action.type with
  | ActionType.NAVIGATION => execute_navigation_action action ev
  | ActionType.MANIPULATION => execute_manipulation_action action ev
  | ActionType.DETECTION => execute_detection_action action ev

/-- `ActionExecutor._execute_single_action`: run the dispatch, overwrite the
result's duration with the measured wall-clock duration `dur`; a raise
escaping the dispatch is caught and becomes a failed result carrying the
exception text. -/
def execute_single_action (action : Action) (action_index : Nat)
    (ev : ExecEvent) (dur : ℚ) : ActionResult :=
  match dispatch_action action ev with
  | Except.ok result => { result with duration := dur }
  | Except.error e =>
      { action_id := "action_" ++ toString action_index, status := "failed",
        details := "Error executing action: " ++ e, duration := dur }

/-- The aggregation of lines 81–83 of `execute_action_plan`: count the
"success" results and fold the count into an overall status string. -/
def overall_status_of (results : List ActionResult) : String :=
  let successful_actions := (results.filter (fun r => r.status == "success")).length
  if successful_actions == results.length then "success"
  else if successful_actions > 0 then "partial"
  else "failure"

/-- The ambient runtime of one `execute_action_plan` call: the exception
event and measured duration of each action (by index), the measured
whole-plan execution time, and the `datetime.now()` timestamp used for the
result id. -/
structure ExecWorld where
  events : Nat → ExecEvent
  durations : Nat → ℚ
  execution_time : ℚ
  now_ts : Nat

/-- `ActionExecutor.execute_action_plan`.  The source mutates
`action_plan.status` in place; the embedding returns the updated plan next
to the `ExecutionResult`.  The safety-protocol check between actions is a
no-op in the source and contributes nothing here. -/
def execute_action_plan (w : ExecWorld) (action_plan : ActionPlan) :
    ActionPlan × ExecutionResult :=
  let plan := { action_plan with status := CommandStatus.PROCESSING }
  let results := plan.actions.enum.map
    (fun p => execute_single_action p.2 p.1 (w.events p.1) (w.durations p.1))
  let execution_result : ExecutionResult :=
    { id := "er_" ++ toString w.now_ts
      action_plan_id := plan.id
      results := results
      overall_status := overall_status_of results
      execution_time := w.execution_time
      timestamp := w.now_ts }
  (plan, execution_result)

/-! ## CognitivePlanner -/

/-- A user intent as supplied by the upstream pipeline (`UserIntent`). -/
structure UserIntent where
  primary_intent : String
  parameters : Params
deriving DecidableEq, Repr

/-- The slice of `VoiceCommand` the planner reads. -/
structure VoiceCommandRef where
  id : String
deriving DecidableEq, Repr

/-- Substring test on character lists (Python's `needle in hay`). -/
def charsContain (hay needle : List Char) : Bool :=
  (List.range (hay.length + 1)).any (fun i => needle.isPrefixOf (hay.drop i))

/-- ASCII case folding for one character (Python's `str.lower`, restricted
to the ASCII names this system uses). -/
def lowerChar (c : Char) : Char :=
  if 65 ≤ c.toNat && c.toNat ≤ 90 then Char.ofNat (c.toNat + 32) else c

/-- `s.lower()`. -/
def pyLower (s : String) : String :=
  ⟨s.data.map lowerChar⟩

/-- Case-insensitive substring test:
`needle.lower() in hay.lower()` of the source. -/
def strContainsCI (hay needle : String) : Bool :=
  charsContain (pyLower hay).data (pyLower needle).data

/-- The object-search loop of `_generate_manipulation_actions`: first object
whose type case-insensitively contains the requested name as a substring. -/
def find_target_object (object_name : String) (objects : List ObjectInfo) :
    Option ObjectInfo :=
  objects.find? (fun obj => strContainsCI obj.type object_name)

/-- `CognitivePlanner._generate_navigation_actions`: parameter checks in
priority order — `location`, then `direction`+`distance`, then `direction`
alone, then a default forward move. -/
def generate_navigation_actions (parameters : Params)
    (_env : EnvironmentalContext) (robot_state : RobotState) : List Action :=
  if parameters.containsKey "location" then
    [{ type := ActionType.NAVIGATION
       parameters := [("action", Value.str "navigate_to"),
                      ("target_location", parameters.getD "location" (Value.str "")),
                      ("current_position", Value.pos robot_state.position)]
       priority := 1, dependencies := [] }]
  else if parameters.containsKey "direction" && parameters.containsKey "distance" then
    [{ type := ActionType.NAVIGATION
       parameters := [("action", Value.str "move_direction"),
                      ("direction", parameters.getD "direction" (Value.str "")),
                      ("distance", parameters.getD "distance" (Value.str "")),
                      ("current_position", Value.pos robot_state.position)]
       priority := 1, dependencies := [] }]
  else if parameters.containsKey "direction" then
    [{ type := ActionType.NAVIGATION
       parameters := [("action", Value.str "move_toward"),
                      ("direction", parameters.getD "direction" (Value.str "")),
                      ("current_position", Value.pos robot_state.position)]
       priority := 1, dependencies := [] }]
  else
    [{ type := ActionType.NAVIGATION
       parameters := [("action", Value.str "move_forward"),
                      ("distance", Value.num 1)]
       priority := 1, dependencies := [] }]

/-- `CognitivePlanner._generate_manipulation_actions`.  With `object` and
`action` parameters present, search the environment for a matching object:
on a match, a `navigate_to` action (approach distance 0.5) followed by the
manipulation action depending on it; on no match, a search action.  With a
non-string object name the source raises `AttributeError` on `.lower()` as
soon as the loop body runs (that is, when any object is present); with no
objects the loop never runs and the non-string name flows into the search
action.  Without both parameters, an idle action. -/
def generate_manipulation_actions (parameters : Params)
    (environmental_context : EnvironmentalContext)
    (_robot_state : RobotState) : Except String (List Action) :=
  match parameters.get? "object", parameters.get? "action" with
  | some objV, some manipulation_action =>
      (match objV with
       | Value.str object_name =>
           (match find_target_object object_name environmental_context.objects with
            | some target_object =>
                Except.ok
                  [{ type := ActionType.NAVIGATION
                     parameters := [("action", Value.str "navigate_to"),
                                    ("target_position", Value.pos target_object.position),
                                    ("approach_distance", Value.num (1/2))]
                     priority := 1, dependencies := [] },
                   { type := ActionType.MANIPULATION
                     parameters := [("action", manipulation_action),
                                    ("object_id", Value.str target_object.id),
                                    ("object_type", Value.str target_object.type),
                                    ("object_position", Value.pos target_object.position)]
                     priority := 2, dependencies := ["action_0"] }]
            | none =>
                Except.ok
                  [{ type := ActionType.DETECTION
                     parameters := [("action", Value.str "search_for_object"),
                                    ("object_type", Value.str object_name)]
                     priority := 1, dependencies := [] }])
       | _ =>
           if environmental_context.objects.isEmpty then
             Except.ok
               [{ type := ActionType.DETECTION
                  parameters := [("action", Value.str "search_for_object"),
                                 ("object_type", objV)]
                  priority := 1, dependencies := [] }]
           else
             Except.error "AttributeError: object name is not a string")
  | _, _ =>
      Except.ok
        [{ type := ActionType.MANIPULATION
           parameters := [("action", Value.str "idle"),
                          ("reason", Value.str "insufficient_parameters")]
           priority := 1, dependencies := [] }]

/-- `CognitivePlanner._generate_detection_actions`. -/
def generate_detection_actions (parameters : Params)
    (_env : EnvironmentalContext) (_robot_state : RobotState) : List Action :=
  if parameters.containsKey "object_type" then
    [{ type := ActionType.DETECTION
       parameters := [("action", Value.str "detect_objects"),
                      ("object_type", parameters.getD "object_type" (Value.str "")),
                      ("search_area", parameters.getD "location" (Value.str "current_area"))]
       priority := 1, dependencies := [] }]
  else
    [{ type := ActionType.DETECTION
       parameters := [("action", Value.str "scan_environment")]
       priority := 1, dependencies := [] }]

/-- `CognitivePlanner._generate_status_actions`. -/
def generate_status_actions : List Action :=
  [{ type := ActionType.DETECTION
     parameters := [("action", Value.str "report_status")]
     priority := 1, dependencies := [] }]

/-- `CognitivePlanner._generate_actions_from_intent`: dispatch on the
lower-cased primary intent; unrecognized intents yield a single no-op
"wait" action. -/
def generate_actions_from_intent (user_intent : UserIntent)
    (environmental_context : EnvironmentalContext)
    (robot_state : RobotState) : Except String (List Action) :=
  let primary_intent := pyLower user_intent.primary_intent
  let parameters := user_intent.parameters
  if primary_intent == "navigation" then
    Except.ok (generate_navigation_actions parameters environmental_context robot_state)
  else if primary_intent == "manipulation" then
    generate_manipulation_actions parameters environmental_context robot_state
  else if primary_intent == "detection" then
    Except.ok (generate_detection_actions parameters environmental_context robot_state)
  else if primary_intent == "status" then
    Except.ok generate_status_actions
  else if primary_intent == "stop" then
    Except.ok [{ type := ActionType.NAVIGATION
                 parameters := [("action", Value.str "stop")]
                 priority := 1, dependencies := [] }]
  else
    Except.ok [{ type := ActionType.NAVIGATION
                 parameters := [("action", Value.str "wait"),
                                ("reason", Value.str "unrecognized_intent")]
                 priority := 1, dependencies := [] }]

/-- `CognitivePlanner._estimate_duration`: 5.0 s base per action, +3.0 per
manipulation, +0.5 × `parameters.get("distance", 1.0)` per navigation. -/
def estimate_duration (actions : List Action) : ℚ :=
  let base_time_per_action : ℚ := 5
  let total_time := (actions.length : ℚ) * base_time_per_action
  actions.foldl
    (fun total_time action =>
      if action.type == ActionType.MANIPULATION then total_time + 3
      else if action.type == ActionType.NAVIGATION then
        total_time + (action.parameters.getNumD "distance" 1) * (1/2)
      else total_time)
    total_time

/-- The `datetime.now()` reading of one `generate_action_plan` call. -/
structure PlanWorld where
  now_ts : Nat

/-- `CognitivePlanner.generate_action_plan`: intent → actions → plan with
PENDING status and the estimated duration; internal exceptions are logged
and re-raised (the `Except.error` case). -/
def generate_action_plan (w : PlanWorld) (voice_command : VoiceCommandRef)
    (user_intent : UserIntent) (environmental_context : EnvironmentalContext)
    (robot_state : RobotState) : Except String ActionPlan :=
  match generate_actions_from_intent user_intent environmental_context robot_state with
  | Except.error e => Except.error e
  | Except.ok actions =>
      Except.ok
        { id := "ap_" ++ toString w.now_ts
          voice_command_id := voice_command.id
          actions := actions
          status := CommandStatus.PENDING
          created_at := w.now_ts
          estimated_duration := estimate_duration actions }

/-! ## AdvancedWhisperPipeline.robust_process_audio -/

/-- A voice command record (`VoiceCommand`); the timestamp of its creation
is modelled as a natural number. -/
structure VoiceCommand where
  id : String
  text : String
  timestamp : Nat
  confidence : ℚ
  intent : String
  parameters : Params
  status : CommandStatus
deriving DecidableEq, Repr

/-- What one call of `process_audio_to_command` does inside the retry loop:
either it returns a `VoiceCommand`, or it raises. -/
inductive AttemptOutcome where
  | returns (vc : VoiceCommand)
  | throws (msg : String)
deriving DecidableEq, Repr

/-- The ambient runtime of one `robust_process_audio` call: the outcome of
attempt number `k` for every `k`, and the `datetime.now()` timestamp used
when building the terminal failure command. -/
structure RetryWorld where
  attempts : Nat → AttemptOutcome
  now_ts : Nat

/-- The failure command built after the loop, embedding the last
exception's message under the "error" parameter key. -/
def failed_command (w : RetryWorld) (last_error : String) : VoiceCommand :=
  { id := "vc_" ++ toString w.now_ts
    text := ""
    timestamp := w.now_ts
    confidence := 0
    intent := ""
    parameters := [("error", Value.str last_error)]
    status := CommandStatus.FAILED }

/-- The `for attempt in range(retries + 1)` loop of `robust_process_audio`,
as structural recursion on the number of retries still allowed after the
current attempt.  A returned result is final when it is not FAILED or when
no retries remain; a raise on the last attempt falls through to the
terminal failure command (the raise is the most recent, so it is the
`last_error` the source embeds); any other outcome moves to the next
attempt. -/
def robust_attempts (w : RetryWorld) : Nat → Nat → VoiceCommand
  | attempt, 0 =>
      (match w.attempts attempt with
       | AttemptOutcome.returns result => result
       | AttemptOutcome.throws msg => failed_command w msg)
  | attempt, remaining + 1 =>
      (match w.attempts attempt with
       | AttemptOutcome.returns result =>
           if result.status != CommandStatus.FAILED then result
           else robust_attempts w (attempt + 1) remaining
       | AttemptOutcome.throws _ => robust_attempts w (attempt + 1) remaining)

/-- The effective retry count `max_retries or self.max_retries`, with
`self.max_retries = 3` (so `None` and `0` both give 3, Python truthiness). -/
def effective_retries (max_retries : Option Nat) : Nat :=
  match max_retries with
  | some n => if n == 0 then 3 else n
  | none => 3

/-- `AdvancedWhisperPipeline.robust_process_audio`. -/
def robust_process_audio (w : RetryWorld) (max_retries : Option Nat) : VoiceCommand :=
  robust_attempts w 0 (effective_retries max_retries)

/-! ## Shared concrete fixtures (used by witnesses and counterexamples) -/

/-- Origin position. -/
def origin : Position3D := { x := 0, y := 0, z := 0 }

/-- A healthy robot state: 80 % battery, safe, both capabilities. -/
def healthyState : RobotState :=
  { position := origin
    battery_level := 8/10
    available_capabilities := ["navigation", "manipulation"]
    safety_status := SafetyStatus.safe }

/-- A robot state with 5 % battery, otherwise healthy. -/
def lowBatteryState : RobotState :=
  { healthyState with battery_level := 1/20 }

/-- An empty environment. -/
def emptyEnv : EnvironmentalContext := { objects := [], obstacles := [] }

/-- A forward-move navigation action. -/
def sampleNavAction : Action :=
  { type := ActionType.NAVIGATION
    parameters := [("action", Value.str "move_forward"), ("distance", Value.num 1)]
    priority := 1
    dependencies := [] }

/-- A pick-up manipulation action. -/
def sampleManipAction : Action :=
  { type := ActionType.MANIPULATION
    parameters := [("action", Value.str "pick_up"), ("object_id", Value.str "obj_1")]
    priority := 1
    dependencies := [] }

/-- Every `ActionType` passes the enum-membership test of
`validate_action_plan` (the test can only fail on untyped Python input). -/
theorem actionTypeValid_eq_true (t : ActionType) : actionTypeValid t = true := by
  cases t <;> rfl

/-! ## C2 -/

/-- C2: for every action, robot state with battery below 0.1 and
environment, `check_action_safety` returns false — the battery check comes
first and short-circuits everything else. -/
theorem check_action_safety_low_battery (action : Action)
    (robot_state : RobotState) (env : EnvironmentalContext)
    (h : robot_state.battery_level < 1/10) :
    check_action_safety action robot_state env = false := by
  unfold check_action_safety
  rw [if_pos h]

/-- C2 witness: a 5 % battery blocks a plain navigation action in an
obstacle-free environment even though every other field is healthy. -/
theorem check_action_safety_low_battery_witness :
    lowBatteryState.battery_level < 1/10 ∧
    check_action_safety sampleNavAction lowBatteryState emptyEnv = false :=
  ⟨by norm_num [lowBatteryState, healthyState],
   check_action_safety_low_battery sampleNavAction lowBatteryState emptyEnv
     (by norm_num [lowBatteryState, healthyState])⟩

/-! ## C4 -/

/-- C4 (amended): `enforce_safety_constraints` returns a plan whose id is
`"safe_" ++` the original id, whose actions are exactly the original
actions that individually pass `check_action_safety`, and which retains
the original's voice-command linkage, status, **created_at** and estimated
duration.  (The claim's "created_at of re-evaluation time" is refuted by
the counterexample below: the source copies the original timestamp.) -/
theorem enforce_safety_constraints_spec (action_plan : ActionPlan)
    (robot_state : RobotState) (env : EnvironmentalContext) :
    (enforce_safety_constraints action_plan robot_state env).id
        = "safe_" ++ action_plan.id ∧
    (enforce_safety_constraints action_plan robot_state env).actions
        = action_plan.actions.filter
            (fun a => check_action_safety a robot_state env) ∧
    (enforce_safety_constraints action_plan robot_state env).voice_command_id
        = action_plan.voice_command_id ∧
    (enforce_safety_constraints action_plan robot_state env).status
        = action_plan.status ∧
    (enforce_safety_constraints action_plan robot_state env).created_at
        = action_plan.created_at ∧
    (enforce_safety_constraints action_plan robot_state env).estimated_duration
        = action_plan.estimated_duration :=
  ⟨rfl, rfl, rfl, rfl, rfl, rfl⟩

/-- A concrete plan created at timestamp 42. -/
def c4Plan : ActionPlan :=
  { id := "plan_1"
    voice_command_id := "vc_1"
    actions := [sampleNavAction, sampleManipAction]
    status := CommandStatus.PENDING
    created_at := 42
    estimated_duration := 10 }

/-- C4 counterexample: the safe plan's `created_at` equals the original
plan's creation time (42) — it is not a fresh re-evaluation timestamp, for
the function receives no clock at all.  This refutes the claim's
"created_at of re-evaluation time ... not the original plan's creation
time". -/
theorem enforce_safety_created_at_counterexample :
    (enforce_safety_constraints c4Plan healthyState emptyEnv).created_at = 42 ∧
    c4Plan.created_at = 42 :=
  ⟨rfl, rfl⟩

/-! ## C8 -/

/-- C8: `validate_action_plan` (a) reports an error on an empty plan;
(b) for an action at index `i` carrying a dependency string that is not
`"action_<j>"` for any valid index `j`, the error list contains the
"Invalid dependency" message for it (hence is non-empty); (c) on a
non-empty plan all of whose dependencies resolve to valid indices, the
error list is empty (the enum-membership check cannot fail on typed
input, `actionTypeValid_eq_true`). -/
theorem validate_action_plan_complete (plan : ActionPlan) :
    (plan.actions = [] → validate_action_plan plan ≠ []) ∧
    (∀ i (hi : i < plan.actions.length) dep,
        dep ∈ (plan.actions.get ⟨i, hi⟩).dependencies →
        (∀ j, j < plan.actions.length → dep ≠ "action_" ++ toString j) →
        ("Action " ++ toString i ++ ": Invalid dependency \u0027" ++ dep ++ "\u0027")
          ∈ validate_action_plan plan) ∧
    (plan.actions ≠ [] →
        (∀ a ∈ plan.actions, ∀ dep ∈ a.dependencies,
            ∃ j, j < plan.actions.length ∧ dep = "action_" ++ toString j) →
        validate_action_plan plan = []) := by
  refine ⟨?_, ?_, ?_⟩
  · intro h
    simp [validate_action_plan, h]
  · intro i hi dep hdep hbad
    unfold validate_action_plan
    rw [List.mem_append]
    right
    rw [List.mem_flatten]
    refine ⟨action_errors plan.actions.length i (plan.actions.get ⟨i, hi⟩), ?_, ?_⟩
    · rw [List.mem_map]
      refine ⟨(i, plan.actions.get ⟨i, hi⟩), ?_, rfl⟩
      rw [List.mk_mem_enum_iff_getElem?]
      simp [List.getElem?_eq_getElem hi]
    · unfold action_errors
      rw [actionTypeValid_eq_true, if_pos rfl, List.nil_append]
      unfold dependency_errors
      rw [List.mem_filterMap]
      refine ⟨dep, hdep, ?_⟩
      have hfalse : ((List.range plan.actions.length).any
          fun j => ("action_" ++ toString j) == dep) = false := by
        rw [List.any_eq_false]
        intro j hj
        rw [List.mem_range] at hj
        simp only [beq_iff_eq]
        exact fun he => hbad j hj he.symm
      rw [if_neg (by simp [hfalse])]
  · intro hne hdeps
    unfold validate_action_plan
    have h1 : plan.actions.isEmpty = false := by
      simpa [List.isEmpty_iff] using hne
    rw [h1]
    rw [if_neg (by simp), List.nil_append, List.flatten_eq_nil_iff]
    intro l hl
    rw [List.mem_map] at hl
    obtain ⟨⟨i, a⟩, hmem, rfl⟩ := hl
    have hma : a ∈ plan.actions := by
      rw [List.mk_mem_enum_iff_getElem?] at hmem
      exact List.getElem?_mem hmem
    unfold action_errors
    rw [actionTypeValid_eq_true, if_pos rfl, List.nil_append]
    unfold dependency_errors
    rw [List.filterMap_eq_nil_iff]
    intro dep hdep
    obtain ⟨j, hj, rfl⟩ := hdeps a hma dep hdep
    rw [if_pos]
    rw [List.any_eq_true]
    exact ⟨j, List.mem_range.mpr hj, by simp⟩

/-- A two-action plan whose second action depends on the out-of-range
index 5. -/
def c8Plan : ActionPlan :=
  { id := "plan_2"
    voice_command_id := "vc_2"
    actions := [sampleNavAction,
                { sampleManipAction with dependencies := ["action_5"] }]
    status := CommandStatus.PENDING
    created_at := 0
    estimated_duration := 13 }

/-- C8 witness: on the two-action plan with dependency "action_5" the
validator's error list contains the invalid-dependency message for it. -/
theorem validate_action_plan_complete_witness :
    ("Action 1: Invalid dependency \u0027action_5\u0027")
      ∈ validate_action_plan c8Plan :=
  (validate_action_plan_complete c8Plan).2.1 1 (by decide) "action_5"
    (by decide) (by decide)

/-! ## C1 -/

/-- The §3 aggregation invariant for a non-empty results list, proved of
the executor's status fold. -/
theorem overall_status_of_iff (results : List ActionResult) (hne : results ≠ []) :
    (overall_status_of results = "success" ↔
        ∀ r ∈ results, r.status = "success") ∧
    (overall_status_of results = "failure" ↔
        ∀ r ∈ results, r.status ≠ "success") ∧
    (overall_status_of results = "partial" ↔
        (∃ r ∈ results, r.status = "success") ∧
        (∃ r ∈ results, r.status ≠ "success")) := by
  have hform : overall_status_of results =
      (if (results.filter (fun r => r.status == "success")).length = results.length
       then "success"
       else if 0 < (results.filter (fun r => r.status == "success")).length
       then "partial" else "failure") := by
    simp only [overall_status_of, beq_iff_eq, gt_iff_lt]
  have hAll : ((results.filter (fun r => r.status == "success")).length
      = results.length) ↔ ∀ r ∈ results, r.status = "success" := by
    rw [List.filter_length_eq_length]
    simp
  have hNone : ((results.filter (fun r => r.status == "success")).length = 0)
      ↔ ∀ r ∈ results, r.status ≠ "success" := by
    rw [List.length_eq_zero, List.filter_eq_nil_iff]
    simp
  rw [hform]
  by_cases h1 : (results.filter (fun r => r.status == "success")).length
      = results.length
  · rw [if_pos h1]
    obtain ⟨r₀, hr₀⟩ := List.exists_mem_of_ne_nil results hne
    refine ⟨by simpa using hAll.mp h1, ?_, ?_⟩
    · constructor
      · intro h
        exact absurd h (by decide)
      · intro h
        exact absurd (hAll.mp h1 r₀ hr₀) (h r₀ hr₀)
    · constructor
      · intro h
        exact absurd h (by decide)
      · rintro ⟨-, r, hr, hrs⟩
        exact absurd (hAll.mp h1 r hr) hrs
  · rw [if_neg h1]
    by_cases h2 : (results.filter (fun r => r.status == "success")).length = 0
    · rw [if_neg (by omega)]
      refine ⟨?_, ?_, ?_⟩
      · constructor
        · intro h
          exact absurd h (by decide)
        · intro h
          exact absurd (hAll.mpr h) h1
      · constructor
        · intro _
          exact hNone.mp h2
        · intro _
          rfl
      · constructor
        · intro h
          exact absurd h (by decide)
        · rintro ⟨⟨r, hr, hrs⟩, -⟩
          exact absurd hrs (hNone.mp h2 r hr)
    · have hpos : 0 < (results.filter (fun r => r.status == "success")).length :=
        Nat.pos_of_ne_zero h2
      rw [if_pos hpos]
      have hfil : results.filter (fun r => r.status == "success") ≠ [] := by
        intro h
        exact h2 (by rw [h]; rfl)
      obtain ⟨r₁, hr₁f⟩ := List.exists_mem_of_ne_nil _ hfil
      have hr₁ := List.mem_filter.mp hr₁f
      have hr₁s : r₁.status = "success" := by simpa using hr₁.2
      have hnotall : ¬ ∀ r ∈ results, r.status = "success" := fun h =>
        h1 (hAll.mpr h)
      push_neg at hnotall
      obtain ⟨r₂, hr₂, hr₂s⟩ := hnotall
      refine ⟨?_, ?_, ?_⟩
      · constructor
        · intro h
          exact absurd h (by decide)
        · intro h
          exact absurd (h r₂ hr₂) hr₂s
      · constructor
        · intro h
          exact absurd h (by decide)
        · intro h
          exact absurd hr₁s (h r₁ hr₁.1)
      · exact ⟨fun _ => ⟨⟨r₁, hr₁.1, hr₁s⟩, ⟨r₂, hr₂, hr₂s⟩⟩, fun _ => rfl⟩

/-- C1 (amended): for every execution of a plan with at least one action,
the returned `overall_status` is "success" iff every per-action result is
"success", "failure" iff none is, and "partial" iff some but not all are.
(For an empty plan the source yields "success" with zero results, which
the counterexample below shows breaks the claim's "failure iff none"
direction.) -/
theorem execute_overall_status_iff (w : ExecWorld) (plan : ActionPlan)
    (hne : plan.actions ≠ []) :
    ((execute_action_plan w plan).2.overall_status = "success" ↔
        ∀ r ∈ (execute_action_plan w plan).2.results, r.status = "success") ∧
    ((execute_action_plan w plan).2.overall_status = "failure" ↔
        ∀ r ∈ (execute_action_plan w plan).2.results, r.status ≠ "success") ∧
    ((execute_action_plan w plan).2.overall_status = "partial" ↔
        (∃ r ∈ (execute_action_plan w plan).2.results, r.status = "success") ∧
        (∃ r ∈ (execute_action_plan w plan).2.results, r.status ≠ "success")) := by
  have hlen : (execute_action_plan w plan).2.results.length
      = plan.actions.length := by
    simp [execute_action_plan]
  have hres : (execute_action_plan w plan).2.results ≠ [] := by
    intro h
    apply hne
    rw [← List.length_eq_zero, ← hlen, h]
    rfl
  exact overall_status_of_iff _ hres

/-- A plan with no actions at all. -/
def emptyPlan : ActionPlan :=
  { id := "plan_0"
    voice_command_id := "vc_0"
    actions := []
    status := CommandStatus.PENDING
    created_at := 0
    estimated_duration := 0 }

/-- An uneventful execution runtime: no exceptions, zero measured times. -/
def quietWorld : ExecWorld :=
  { events := fun _ => ExecEvent.normal
    durations := fun _ => 0
    execution_time := 0
    now_ts := 0 }

/-- C1 counterexample: executing the empty plan yields zero results — so no
result has status "success" — yet `overall_status` is "success", not
"failure" (`0 == len [] `), falsifying the claim's "failure iff no
ActionResult has status success" at this input. -/
theorem overall_status_empty_counterexample :
    (∀ r ∈ (execute_action_plan quietWorld emptyPlan).2.results,
        r.status ≠ "success") ∧
    (execute_action_plan quietWorld emptyPlan).2.overall_status = "success" ∧
    ¬((execute_action_plan quietWorld emptyPlan).2.overall_status = "failure" ↔
        ∀ r ∈ (execute_action_plan quietWorld emptyPlan).2.results,
          r.status ≠ "success") := by
  refine ⟨?_, rfl, ?_⟩
  · intro r hr
    simp [execute_action_plan, emptyPlan] at hr
  · intro h
    have h2 : (execute_action_plan quietWorld emptyPlan).2.overall_status
        = "failure" := h.mpr (by
      intro r hr
      simp [execute_action_plan, emptyPlan] at hr)
    rw [show (execute_action_plan quietWorld emptyPlan).2.overall_status
        = "success" from rfl] at h2
    exact absurd h2 (by decide)

/-- A world in which the first action's execution raises in the frame of
`_execute_single_action` and every later action runs normally. -/
def boomWorld : ExecWorld :=
  { events := fun i => if i == 0 then ExecEvent.outerRaise "boom" else ExecEvent.normal
    durations := fun _ => 1
    execution_time := 2
    now_ts := 7 }

/-- C1 witness: the two-action plan under `boomWorld` (first action raises,
second succeeds) has one success out of two, and the iff equivalences of
`execute_overall_status_iff` apply to it. -/
theorem execute_overall_status_iff_witness :
    c4Plan.actions ≠ [] ∧
    ((execute_action_plan boomWorld c4Plan).2.overall_status = "partial" ↔
        (∃ r ∈ (execute_action_plan boomWorld c4Plan).2.results,
            r.status = "success") ∧
        (∃ r ∈ (execute_action_plan boomWorld c4Plan).2.results,
            r.status ≠ "success")) :=
  ⟨by decide,
   (execute_overall_status_iff boomWorld c4Plan (by decide)).2.2⟩

/-! ## C10 -/

/-- C10: `execute_action_plan` leaves the input plan with status
PROCESSING — it never transitions it to COMPLETED or FAILED whatever the
per-action outcomes are — and modifies no other field of the plan. -/
theorem execute_action_plan_plan_frame (w : ExecWorld) (plan : ActionPlan) :
    (execute_action_plan w plan).1.status = CommandStatus.PROCESSING ∧
    (execute_action_plan w plan).1.id = plan.id ∧
    (execute_action_plan w plan).1.voice_command_id = plan.voice_command_id ∧
    (execute_action_plan w plan).1.actions = plan.actions ∧
    (execute_action_plan w plan).1.created_at = plan.created_at ∧
    (execute_action_plan w plan).1.estimated_duration = plan.estimated_duration :=
  ⟨rfl, rfl, rfl, rfl, rfl, rfl⟩

/-! ## C3 -/

/-- C3: execution produces exactly one result per action, in list order
(the `i`-th result is the `i`-th action's, whatever happened before it —
so one action's failure or raise never aborts the rest), and a raise
escaping an action's dispatch is caught into a "failed" result carrying
the exception text instead of propagating. -/
theorem execute_action_plan_per_action (w : ExecWorld) (plan : ActionPlan) :
    ((execute_action_plan w plan).2.results.length = plan.actions.length) ∧
    (∀ i (hi : i < plan.actions.length),
        (execute_action_plan w plan).2.results[i]? =
          some (execute_single_action (plan.actions.get ⟨i, hi⟩) i
            (w.events i) (w.durations i))) ∧
    (∀ action i msg dur,
        execute_single_action action i (ExecEvent.outerRaise msg) dur =
          { action_id := "action_" ++ toString i
            status := "failed"
            details := "Error executing action: " ++ msg
            duration := dur }) := by
  refine ⟨by simp [execute_action_plan], ?_, ?_⟩
  · intro i hi
    show (plan.actions.enum.map
      (fun p => execute_single_action p.2 p.1 (w.events p.1) (w.durations p.1)))[i]?
        = _
    rw [List.getElem?_map, List.getElem?_enum,
        List.getElem?_eq_getElem hi]
    simp [List.get_eq_getElem]
  · intro action i msg dur
    rcases action with ⟨t, ps, pr, deps⟩
    cases t <;> rfl

/-- C3 witness: under `boomWorld` the two-action plan still yields two
results; the first (raising) action's slot holds the caught-exception
failed result. -/
theorem execute_action_plan_per_action_witness :
    (execute_action_plan boomWorld c4Plan).2.results[0]? =
      some { action_id := "action_0"
             status := "failed"
             details := "Error executing action: boom"
             duration := 1 } := by
  have h := (execute_action_plan_per_action boomWorld c4Plan).2.1 0 (by decide)
  rw [h]
  rfl

/-! ## C6 -/

/-- C6: for an intent whose lower-cased `primary_intent` is none of the
five recognized strings, `generate_action_plan` returns (never raises) a
plan holding exactly the single no-op "wait" action tagged
"unrecognized_intent". -/
theorem generate_action_plan_unrecognized (w : PlanWorld)
    (vc : VoiceCommandRef) (ui : UserIntent) (env : EnvironmentalContext)
    (rs : RobotState)
    (h : pyLower ui.primary_intent ∉
        (["navigation", "manipulation", "detection", "status", "stop"] :
          List String)) :
    ∃ plan, generate_action_plan w vc ui env rs = Except.ok plan ∧
      plan.actions = [{ type := ActionType.NAVIGATION
                        parameters := [("action", Value.str "wait"),
                                       ("reason", Value.str "unrecognized_intent")]
                        priority := 1
                        dependencies := [] }] := by
  simp only [List.mem_cons, List.not_mem_nil, or_false, not_or] at h
  obtain ⟨h1, h2, h3, h4, h5⟩ := h
  have b1 : (pyLower ui.primary_intent == "navigation") = false :=
    beq_eq_false_iff_ne.mpr h1
  have b2 : (pyLower ui.primary_intent == "manipulation") = false :=
    beq_eq_false_iff_ne.mpr h2
  have b3 : (pyLower ui.primary_intent == "detection") = false :=
    beq_eq_false_iff_ne.mpr h3
  have b4 : (pyLower ui.primary_intent == "status") = false :=
    beq_eq_false_iff_ne.mpr h4
  have b5 : (pyLower ui.primary_intent == "stop") = false :=
    beq_eq_false_iff_ne.mpr h5
  refine ⟨{ id := "ap_" ++ toString w.now_ts
            voice_command_id := vc.id
            actions := [{ type := ActionType.NAVIGATION
                          parameters := [("action", Value.str "wait"),
                                         ("reason", Value.str "unrecognized_intent")]
                          priority := 1
                          dependencies := [] }]
            status := CommandStatus.PENDING
            created_at := w.now_ts
            estimated_duration :=
              estimate_duration
                [{ type := ActionType.NAVIGATION
                   parameters := [("action", Value.str "wait"),
                                  ("reason", Value.str "unrecognized_intent")]
                   priority := 1
                   dependencies := [] }] }, ?_, rfl⟩
  unfold generate_action_plan generate_actions_from_intent
  simp only [b1, b2, b3, b4, b5, Bool.false_eq_true, if_false]

/-- An intent string the planner does not recognize. -/
def danceIntent : UserIntent := { primary_intent := "Dance", parameters := [] }

/-- C6 witness: the "Dance" intent is unrecognized and yields exactly the
single wait action. -/
theorem generate_action_plan_unrecognized_witness :
    pyLower danceIntent.primary_intent ∉
        (["navigation", "manipulation", "detection", "status", "stop"] :
          List String) ∧
    ∃ plan, generate_action_plan ⟨5⟩ ⟨"vc_9"⟩ danceIntent emptyEnv healthyState
        = Except.ok plan ∧
      plan.actions = [{ type := ActionType.NAVIGATION
                        parameters := [("action", Value.str "wait"),
                                       ("reason", Value.str "unrecognized_intent")]
                        priority := 1
                        dependencies := [] }] :=
  ⟨by decide,
   generate_action_plan_unrecognized ⟨5⟩ ⟨"vc_9"⟩ danceIntent emptyEnv
     healthyState (by decide)⟩

/-! ## C5 -/

/-- Every action the navigation generator emits has an empty dependency
list. -/
theorem generate_navigation_actions_deps (ps : Params)
    (env : EnvironmentalContext) (rs : RobotState) :
    ∀ a ∈ generate_navigation_actions ps env rs, a.dependencies = [] := by
  intro a ha
  unfold generate_navigation_actions at ha
  split at ha
  · simp_all
  · split at ha
    · simp_all
    · split at ha <;> simp_all

/-- Every action the detection generator emits has an empty dependency
list. -/
theorem generate_detection_actions_deps (ps : Params)
    (env : EnvironmentalContext) (rs : RobotState) :
    ∀ a ∈ generate_detection_actions ps env rs, a.dependencies = [] := by
  intro a ha
  unfold generate_detection_actions at ha
  split at ha
  all_goals simp_all

/-- Case analysis of the manipulation generator: every emitted action has
an empty dependency list, except the manipulation action of the
matched-object case, whose dependency list is exactly `["action_0"]`. -/
theorem generate_manipulation_actions_cases (ps : Params)
    (env : EnvironmentalContext) (rs : RobotState) (actions : List Action)
    (h : generate_manipulation_actions ps env rs = Except.ok actions) :
    ∀ a ∈ actions, a.dependencies = [] ∨
      (a.dependencies = ["action_0"] ∧ a.type = ActionType.MANIPULATION ∧
        ∃ name tobj, ps.get? "object" = some (Value.str name) ∧
          (ps.get? "action").isSome ∧
          find_target_object name env.objects = some tobj) := by
  intro a ha
  unfold generate_manipulation_actions at h
  split at h
  · rename_i objV mv ho hm
    split at h
    · rename_i name
      split at h
      · rename_i tobj hfind
        rw [Except.ok.injEq] at h
        subst h
        simp only [List.mem_cons, List.mem_singleton, List.not_mem_nil,
          or_false] at ha
        rcases ha with rfl | rfl
        · left
          rfl
        · right
          exact ⟨rfl, rfl, name, tobj, ho, by rw [hm]; rfl, hfind⟩
      · rw [Except.ok.injEq] at h
        subst h
        simp only [List.mem_singleton] at ha
        subst ha
        left
        rfl
    · split at h
      · rw [Except.ok.injEq] at h
        subst h
        simp only [List.mem_singleton] at ha
        subst ha
        left
        rfl
      · cases h
  · rw [Except.ok.injEq] at h
    subst h
    simp only [List.mem_singleton] at ha
    subst ha
    left
    rfl

/-- C5: for a manipulation intent carrying `object` and `action`
parameters whose object name case-insensitively matches some environment
object's type, the generated plan is the navigation action (`navigate_to`,
approach distance 0.5) followed by the manipulation action depending on
`"action_0"`; and across the whole planner this matched-manipulation case
is the only one that emits a non-empty dependency list. -/
theorem generate_action_plan_manipulation_match (w : PlanWorld)
    (vc : VoiceCommandRef) (ui : UserIntent) (env : EnvironmentalContext)
    (rs : RobotState) (object_name : String) (mv : Value) (tobj : ObjectInfo)
    (hint : pyLower ui.primary_intent = "manipulation")
    (hobj : ui.parameters.get? "object" = some (Value.str object_name))
    (hact : ui.parameters.get? "action" = some mv)
    (hfind : find_target_object object_name env.objects = some tobj) :
    (∃ plan, generate_action_plan w vc ui env rs = Except.ok plan ∧
        plan.actions =
          [{ type := ActionType.NAVIGATION
             parameters := [("action", Value.str "navigate_to"),
                            ("target_position", Value.pos tobj.position),
                            ("approach_distance", Value.num (1/2))]
             priority := 1
             dependencies := [] },
           { type := ActionType.MANIPULATION
             parameters := [("action", mv),
                            ("object_id", Value.str tobj.id),
                            ("object_type", Value.str tobj.type),
                            ("object_position", Value.pos tobj.position)]
             priority := 2
             dependencies := ["action_0"] }]) ∧
    (∀ (ui2 : UserIntent) (env2 : EnvironmentalContext) (rs2 : RobotState)
        (actions2 : List Action),
        generate_actions_from_intent ui2 env2 rs2 = Except.ok actions2 →
        ∀ a ∈ actions2, a.dependencies ≠ [] →
          pyLower ui2.primary_intent = "manipulation" ∧
          a.dependencies = ["action_0"] ∧ a.type = ActionType.MANIPULATION ∧
          ∃ name tobj2, ui2.parameters.get? "object" = some (Value.str name) ∧
            (ui2.parameters.get? "action").isSome ∧
            find_target_object name env2.objects = some tobj2) := by
  constructor
  · have hgen : generate_actions_from_intent ui env rs =
        generate_manipulation_actions ui.parameters env rs := by
      unfold generate_actions_from_intent
      have bm : (pyLower ui.primary_intent == "manipulation") = true := by
        rw [beq_iff_eq]
        exact hint
      have b1 : (pyLower ui.primary_intent == "navigation") = false := by
        rw [beq_eq_false_iff_ne, hint]
        decide
      simp only [b1, Bool.false_eq_true, if_false, bm, if_true]
    have hmanip : generate_manipulation_actions ui.parameters env rs =
        Except.ok
          [{ type := ActionType.NAVIGATION
             parameters := [("action", Value.str "navigate_to"),
                            ("target_position", Value.pos tobj.position),
                            ("approach_distance", Value.num (1/2))]
             priority := 1
             dependencies := [] },
           { type := ActionType.MANIPULATION
             parameters := [("action", mv),
                            ("object_id", Value.str tobj.id),
                            ("object_type", Value.str tobj.type),
                            ("object_position", Value.pos tobj.position)]
             priority := 2
             dependencies := ["action_0"] }] := by
      unfold generate_manipulation_actions
      rw [hobj, hact]
      simp only [hfind]
    refine ⟨{ id := "ap_" ++ toString w.now_ts
              voice_command_id := vc.id
              actions :=
                [{ type := ActionType.NAVIGATION
                   parameters := [("action", Value.str "navigate_to"),
                                  ("target_position", Value.pos tobj.position),
                                  ("approach_distance", Value.num (1/2))]
                   priority := 1
                   dependencies := [] },
                 { type := ActionType.MANIPULATION
                   parameters := [("action", mv),
                                  ("object_id", Value.str tobj.id),
                                  ("object_type", Value.str tobj.type),
                                  ("object_position", Value.pos tobj.position)]
                   priority := 2
                   dependencies := ["action_0"] }]
              status := CommandStatus.PENDING
              created_at := w.now_ts
              estimated_duration :=
                estimate_duration
                  [{ type := ActionType.NAVIGATION
                     parameters := [("action", Value.str "navigate_to"),
                                    ("target_position", Value.pos tobj.position),
                                    ("approach_distance", Value.num (1/2))]
                     priority := 1
                     dependencies := [] },
                   { type := ActionType.MANIPULATION
                     parameters := [("action", mv),
                                    ("object_id", Value.str tobj.id),
                                    ("object_type", Value.str tobj.type),
                                    ("object_position", Value.pos tobj.position)]
                     priority := 2
                     dependencies := ["action_0"] }] }, ?_, rfl⟩
    unfold generate_action_plan
    rw [hgen, hmanip]
  · intro ui2 env2 rs2 actions2 hgen2 a ha hdeps
    unfold generate_actions_from_intent at hgen2
    by_cases c1 : pyLower ui2.primary_intent == "navigation"
    · rw [if_pos c1, Except.ok.injEq] at hgen2
      subst hgen2
      exact absurd (generate_navigation_actions_deps _ _ _ a ha) hdeps
    · rw [if_neg c1] at hgen2
      by_cases c2 : pyLower ui2.primary_intent == "manipulation"
      · rw [if_pos c2] at hgen2
        rcases generate_manipulation_actions_cases _ _ _ _ hgen2 a ha with
          hz | ⟨hd, ht, name, tobj2, hno, hna, hnf⟩
        · exact absurd hz hdeps
        · exact ⟨beq_iff_eq.mp c2, hd, ht, name, tobj2, hno, hna, hnf⟩
      · rw [if_neg c2] at hgen2
        by_cases c3 : pyLower ui2.primary_intent == "detection"
        · rw [if_pos c3, Except.ok.injEq] at hgen2
          subst hgen2
          exact absurd (generate_detection_actions_deps _ _ _ a ha) hdeps
        · rw [if_neg c3] at hgen2
          by_cases c4 : pyLower ui2.primary_intent == "status"
          · rw [if_pos c4, Except.ok.injEq] at hgen2
            subst hgen2
            simp only [generate_status_actions, List.mem_singleton] at ha
            subst ha
            exact absurd rfl hdeps
          · rw [if_neg c4] at hgen2
            by_cases c5 : pyLower ui2.primary_intent == "stop"
            · rw [if_pos c5, Except.ok.injEq] at hgen2
              subst hgen2
              simp only [List.mem_singleton] at ha
              subst ha
              exact absurd rfl hdeps
            · rw [if_neg c5, Except.ok.injEq] at hgen2
              subst hgen2
              simp only [List.mem_singleton] at ha
              subst ha
              exact absurd rfl hdeps

/-- A red cup sitting at (1, 2, 0). -/
def redCup : ObjectInfo :=
  { id := "obj_1", type := "red cup", position := { x := 1, y := 2, z := 0 },
    confidence := 1 }

/-- An environment containing only the red cup. -/
def cupEnv : EnvironmentalContext := { objects := [redCup], obstacles := [] }

/-- The "pick up the cup" intent. -/
def pickCupIntent : UserIntent :=
  { primary_intent := "manipulation"
    parameters := [("object", Value.str "cup"), ("action", Value.str "pick_up")] }

/-- C5 witness: "pick up the cup" against the red-cup environment — the
requested name "cup" matches the type "red cup" case-insensitively, and
the plan is navigate-then-manipulate with the dependency edge. -/
theorem generate_action_plan_manipulation_match_witness :
    find_target_object "cup" cupEnv.objects = some redCup ∧
    ∃ plan, generate_action_plan ⟨8⟩ ⟨"vc_5"⟩ pickCupIntent cupEnv healthyState
        = Except.ok plan ∧
      plan.actions =
        [{ type := ActionType.NAVIGATION
           parameters := [("action", Value.str "navigate_to"),
                          ("target_position", Value.pos redCup.position),
                          ("approach_distance", Value.num (1/2))]
           priority := 1
           dependencies := [] },
         { type := ActionType.MANIPULATION
           parameters := [("action", Value.str "pick_up"),
                          ("object_id", Value.str redCup.id),
                          ("object_type", Value.str redCup.type),
                          ("object_position", Value.pos redCup.position)]
           priority := 2
           dependencies := ["action_0"] }] :=
  ⟨by decide,
   (generate_action_plan_manipulation_match ⟨8⟩ ⟨"vc_5"⟩ pickCupIntent cupEnv
      healthyState "cup" (Value.str "pick_up") redCup (by decide) (by decide)
      (by decide) (by decide)).1⟩

/-! ## C7 -/

/-- Per-action surcharge of `_estimate_duration`, in closed form: 3.0 per
manipulation action; 0.5 × `parameters.get("distance", 1.0)` per
navigation action — a navigation action with **no** distance parameter
gets the default 1.0 and so contributes 0.5, not 0; 0 otherwise. -/
def duration_contrib (action : Action) : ℚ :=
  if action.type = ActionType.MANIPULATION then 3
  else if action.type = ActionType.NAVIGATION then
    (action.parameters.getNumD "distance" 1) * (1/2)
  else 0

/-- The fold of `_estimate_duration` accumulates exactly the per-action
surcharges. -/
theorem estimate_duration_foldl (actions : List Action) (init : ℚ) :
    actions.foldl
      (fun total_time action =>
        if action.type == ActionType.MANIPULATION then total_time + 3
        else if action.type == ActionType.NAVIGATION then
          total_time + (action.parameters.getNumD "distance" 1) * (1/2)
        else total_time)
      init = init + (actions.map duration_contrib).sum := by
  induction actions generalizing init with
  | nil => simp
  | cons a tl ih =>
    rw [List.foldl_cons, List.map_cons, List.sum_cons]
    have hstep : (if (a.type == ActionType.MANIPULATION) = true then init + 3
        else if (a.type == ActionType.NAVIGATION) = true then
          init + (a.parameters.getNumD "distance" 1) * (1/2)
        else init) = init + duration_contrib a := by
      rcases a with ⟨t, ps, pr, deps⟩
      cases t <;> simp [duration_contrib]
    rw [hstep, ih]
    ring

/-- The "move forward 2 meters" navigation intent. -/
def forwardIntent : UserIntent :=
  { primary_intent := "navigation"
    parameters := [("direction", Value.str "forward"), ("distance", Value.num 2)] }

/-- The single action the planner emits for `forwardIntent`. -/
def forwardMoveAction : Action :=
  { type := ActionType.NAVIGATION
    parameters := [("action", Value.str "move_direction"),
                   ("direction", Value.str "forward"),
                   ("distance", Value.num 2),
                   ("current_position", Value.pos healthyState.position)]
    priority := 1
    dependencies := [] }

/-- C7 (amended): the estimate is `5.0 × count` plus, per action, 3.0 for
manipulation and `0.5 × get("distance", 1.0)` for navigation — so a
navigation action without a distance parameter contributes 0.5 (the
default 1.0 halved), not 0 (see the counterexample); and the scenario
holds: the forward-2.0 navigation intent yields exactly one
`move_direction` action with duration estimate 6.0. -/
theorem estimate_duration_spec :
    (∀ actions : List Action,
        estimate_duration actions =
          (actions.length : ℚ) * 5 + (actions.map duration_contrib).sum) ∧
    (∃ plan, generate_action_plan ⟨3⟩ ⟨"vc_7"⟩ forwardIntent emptyEnv healthyState
        = Except.ok plan ∧
      plan.actions = [forwardMoveAction] ∧
      plan.estimated_duration = 6) := by
  constructor
  · intro actions
    unfold estimate_duration
    rw [estimate_duration_foldl]
  · have hd : estimate_duration [forwardMoveAction] = 6 := by
      simp [estimate_duration, forwardMoveAction, Params.getNumD, Params.get?,
        List.find?]
      norm_num
    have hgen : generate_action_plan ⟨3⟩ ⟨"vc_7"⟩ forwardIntent emptyEnv
        healthyState = Except.ok
          { id := "ap_3"
            voice_command_id := "vc_7"
            actions := [forwardMoveAction]
            status := CommandStatus.PENDING
            created_at := 3
            estimated_duration := estimate_duration [forwardMoveAction] } := rfl
    exact ⟨_, hgen, rfl, hd⟩

/-- A navigation action with no "distance" parameter, exactly as the
planner emits for a location intent. -/
def navNoDistance : Action :=
  { type := ActionType.NAVIGATION
    parameters := [("action", Value.str "navigate_to"),
                   ("target_location", Value.str "kitchen")]
    priority := 1
    dependencies := [] }

/-- C7 counterexample: one navigation action with no "distance" parameter
is estimated at 5.5 s, not the 5.0 s the claim's "contributes 0 beyond the
base" demands — `get("distance", 1.0)` defaults to 1.0, adding 0.5. -/
theorem estimate_duration_no_distance_counterexample :
    estimate_duration [navNoDistance] = 11/2 ∧
    estimate_duration [navNoDistance] ≠ (1 : ℚ) * 5 + 0 := by
  have h : estimate_duration [navNoDistance] = 11/2 := by
    simp [estimate_duration, navNoDistance, Params.getNumD, Params.get?,
      List.find?]
    norm_num
  refine ⟨h, ?_⟩
  rw [h]
  norm_num

/-! ## C9 -/

/-- Attempt outcomes the retry loop moves past while retries remain: a
raise, or a returned command flagged FAILED. -/
def retryable : AttemptOutcome → Prop
  | AttemptOutcome.returns r => r.status = CommandStatus.FAILED
  | AttemptOutcome.throws _ => True

/-- If the attempts before attempt `attempt + k` are all retryable and
attempt `attempt + k` returns a command, the loop returns that command
provided it is not flagged FAILED or no retries remain beyond it. -/
theorem robust_attempts_returns (w : RetryWorld) :
    ∀ (remaining attempt k : Nat) (r : VoiceCommand),
      k ≤ remaining →
      (∀ j, j < k → retryable (w.attempts (attempt + j))) →
      w.attempts (attempt + k) = AttemptOutcome.returns r →
      (r.status ≠ CommandStatus.FAILED ∨ k = remaining) →
      robust_attempts w attempt remaining = r := by
  intro remaining
  induction remaining with
  | zero =>
    intro attempt k r hk _hr hret _hor
    have hk0 : k = 0 := Nat.le_zero.mp hk
    subst hk0
    rw [Nat.add_zero] at hret
    unfold robust_attempts
    rw [hret]
  | succ n ih =>
    intro attempt k r hk hr hret hor
    cases k with
    | zero =>
      rw [Nat.add_zero] at hret
      have hs : r.status ≠ CommandStatus.FAILED := by
        rcases hor with h | h
        · exact h
        · exact absurd h.symm (Nat.succ_ne_zero n)
      unfold robust_attempts
      rw [hret]
      have hb : (r.status != CommandStatus.FAILED) = true := by
        simpa [bne_iff_ne] using hs
      show (if (r.status != CommandStatus.FAILED) = true then r
            else robust_attempts w (attempt + 1) n) = r
      rw [if_pos hb]
    | succ m =>
      have hk2 : m ≤ n := Nat.succ_le_succ_iff.mp hk
      have h0 : retryable (w.attempts attempt) := by
        have := hr 0 (Nat.succ_pos m)
        rwa [Nat.add_zero] at this
      have hshift : ∀ j, j < m → retryable (w.attempts (attempt + 1 + j)) := by
        intro j hj
        have := hr (j + 1) (Nat.succ_lt_succ hj)
        rwa [show attempt + (j + 1) = attempt + 1 + j by omega] at this
      have hret2 : w.attempts (attempt + 1 + m) = AttemptOutcome.returns r := by
        rwa [show attempt + 1 + m = attempt + (m + 1) by omega]
      have hor2 : r.status ≠ CommandStatus.FAILED ∨ m = n := by
        rcases hor with h | h
        · exact Or.inl h
        · exact Or.inr (by omega)
      cases hcur : w.attempts attempt with
      | returns r0 =>
        have hs0 : r0.status = CommandStatus.FAILED := by
          rw [hcur] at h0
          exact h0
        unfold robust_attempts
        rw [hcur]
        have hb0 : (r0.status != CommandStatus.FAILED) = false := by
          simp [bne_iff_ne, hs0]
        show (if (r0.status != CommandStatus.FAILED) = true then r0
              else robust_attempts w (attempt + 1) n) = r
        rw [if_neg (by simp [hb0])]
        exact ih (attempt + 1) m r hk2 hshift hret2 hor2
      | throws msg =>
        unfold robust_attempts
        rw [hcur]
        exact ih (attempt + 1) m r hk2 hshift hret2 hor2

/-- If every attempt from `attempt` through `attempt + remaining` throws,
the loop ends in the constructed failure command carrying the message of
the final throw. -/
theorem robust_attempts_throws (w : RetryWorld) :
    ∀ (remaining attempt : Nat),
      (∀ j, j ≤ remaining → ∃ m, w.attempts (attempt + j) = AttemptOutcome.throws m) →
      ∃ m, w.attempts (attempt + remaining) = AttemptOutcome.throws m ∧
        robust_attempts w attempt remaining = failed_command w m := by
  intro remaining
  induction remaining with
  | zero =>
    intro attempt h
    obtain ⟨m, hm⟩ := h 0 (Nat.le_refl 0)
    rw [Nat.add_zero] at hm
    refine ⟨m, by rw [Nat.add_zero]; exact hm, ?_⟩
    unfold robust_attempts
    rw [hm]
  | succ n ih =>
    intro attempt h
    obtain ⟨m0, hm0⟩ := h 0 (Nat.zero_le _)
    rw [Nat.add_zero] at hm0
    obtain ⟨m, hm, hrec⟩ := ih (attempt + 1) (fun j hj => by
      obtain ⟨mj, hmj⟩ := h (j + 1) (Nat.succ_le_succ hj)
      exact ⟨mj, by rwa [show attempt + 1 + j = attempt + (j + 1) by omega]⟩)
    refine ⟨m, by rwa [show attempt + (n + 1) = attempt + 1 + n by omega], ?_⟩
    unfold robust_attempts
    rw [hm0]
    exact hrec

/-- C9: the retry wrapper returns an attempt's command as soon as it is
not flagged FAILED (all earlier attempts having been retried past), or
whatever the final attempt returns; and when every one of the
`1 + effective_retries` attempts throws, it returns — never raises — the
constructed failed command whose parameters carry the last exception's
message under the "error" key. -/
theorem robust_process_audio_spec (w : RetryWorld) (mr : Option Nat) :
    (∀ k r, k ≤ effective_retries mr →
        (∀ j, j < k → retryable (w.attempts j)) →
        w.attempts k = AttemptOutcome.returns r →
        (r.status ≠ CommandStatus.FAILED ∨ k = effective_retries mr) →
        robust_process_audio w mr = r) ∧
    ((∀ j, j ≤ effective_retries mr →
        ∃ m, w.attempts j = AttemptOutcome.throws m) →
      ∃ m, w.attempts (effective_retries mr) = AttemptOutcome.throws m ∧
        robust_process_audio w mr = failed_command w m ∧
        (failed_command w m).parameters.get? "error" = some (Value.str m) ∧
        (failed_command w m).status = CommandStatus.FAILED) := by
  constructor
  · intro k r hk hr hret hor
    exact robust_attempts_returns w (effective_retries mr) 0 k r hk
      (fun j hj => by simpa using hr j hj) (by simpa using hret) hor
  · intro h
    obtain ⟨m, hm, hrec⟩ := robust_attempts_throws w (effective_retries mr) 0
      (fun j hj => by simpa using h j hj)
    exact ⟨m, by simpa using hm, hrec, rfl, rfl⟩

/-- A runtime in which every attempt raises the same I/O error. -/
def allThrowWorld : RetryWorld :=
  { attempts := fun _ => AttemptOutcome.throws "io error", now_ts := 11 }

/-- C9 witness: with `max_retries = 2` and every attempt throwing, the
wrapper returns the failed command embedding "io error" under the "error"
parameter key. -/
theorem robust_process_audio_spec_witness :
    ∃ m, allThrowWorld.attempts (effective_retries (some 2))
        = AttemptOutcome.throws m ∧
      robust_process_audio allThrowWorld (some 2)
        = failed_command allThrowWorld m ∧
      (failed_command allThrowWorld m).parameters.get? "error"
        = some (Value.str m) ∧
      (failed_command allThrowWorld m).status = CommandStatus.FAILED :=
  (robust_process_audio_spec allThrowWorld (some 2)).2
    (fun _ _ => ⟨"io error", rfl⟩)

end VLA
